import Mathlib

/-!
Shallow embedding of the curses-game-wrapper crate (src/lib.rs, src/term_data.rs):
the VT100 terminal emulator state (`TermData`), its parser-callback operations,
the subprocess reader step, and the driver turn loop, together with theorems
settling the specification claims.

Conventions: `usize` values are `Nat`; machine bytes are `Nat` (`Byte`); Rust
panics (failed `assert!`, index out of bounds, arithmetic overflow in debug
builds, `unimplemented!`) are modelled as `Except.error` values of type `TErr`.
-/

namespace CGW

abbrev Byte := Nat

/-- Cursor position, from term_data.rs `struct Cursor`. -/
structure Cursor where
  x : Nat
  y : Nat
deriving Repr, DecidableEq

/-- Terminal mode bitset, from term_data.rs `bitflags! TermMode`; each flag is a
Bool field. -/
structure TermMode where
  show_cursor : Bool := false
  app_cursor : Bool := false
  app_keypad : Bool := false
  mouse_report_click : Bool := false
  bracketed_paste : Bool := false
  sgr_mouse : Bool := false
  mouse_motion : Bool := false
  line_wrap : Bool := false
  line_feed_new_line : Bool := false
  origin : Bool := false
  insert_mode : Bool := false
  focus_in_out : Bool := false
deriving Repr, DecidableEq

/-- `impl Default for TermMode`: SHOW_CURSOR | LINE_WRAP. -/
def TermMode.default_mode : TermMode := { show_cursor := true, line_wrap := true }

/-- Error outcomes of operations that can panic in the Rust source. -/
inductive TErr where
  /-- index out of bounds on a Vec -/
  | oob
  /-- a failed assert! (including assert_cursor) -/
  | assert_failed
  /-- usize arithmetic underflow (debug-build panic) -/
  | overflow
  /-- fuel exhaustion, modelling a nonterminating loop (width = 0 wrap loop) -/
  | fuel_out
  /-- unimplemented! (dectest) -/
  | unimpl
  /-- the driver received Handle::Panicked and panicked -/
  | child_panicked
  /-- the driver channel disconnected and the driver panicked -/
  | disconnected
deriving Repr, DecidableEq

/-- Emulator state, from term_data.rs `struct TermData` (the logger field is
omitted: it only affects log output). `scroll_range` is the `LineRange(top,
bottom)` pair. -/
structure TermData where
  buf : List (List Byte)
  cur : Cursor
  height : Nat
  width : Nat
  mode : TermMode
  scroll_range : Nat × Nat
  saved_cur : Cursor
  preceeding : Option Byte
deriving Repr, DecidableEq

/-- `TermData::from_setting`: grid of spaces, default cursor, mode and scroll
region (the GameSetting fields `lines`/`columns` are passed directly). -/
def from_setting (lines columns : Nat) : TermData :=
  { buf := List.replicate lines (List.replicate columns 32)
    cur := ⟨0, 0⟩
    height := lines
    width := columns
    mode := TermMode.default_mode
    scroll_range := (0, lines)
    saved_cur := ⟨0, 0⟩
    preceeding := none }

/-- Read grid cell `buf[i][j]`; `none` models a Rust index-out-of-bounds panic. -/
def gridGet (buf : List (List Byte)) (i j : Nat) : Option Byte :=
  (buf[i]?).bind fun row => row[j]?

/-- Write grid cell `buf[i][j] = v`; `none` models a Rust index panic. -/
def gridSet (buf : List (List Byte)) (i j : Nat) (v : Byte) : Option (List (List Byte)) :=
  match buf[i]? with
  | none => none
  | some row => if j < row.length then some (buf.set i (row.set j v)) else none

/-- Lift an Option-returning indexing operation into the panic monad. -/
def liftOpt {α : Type} : Option α → Except TErr α
  | some a => Except.ok a
  | none => Except.error TErr.oob

/-- `TermData::ret_screen`. -/
def ret_screen (t : TermData) : List (List Byte) := t.buf

/-- `TermData::is_cursor_valid`. -/
def is_cursor_valid (t : TermData) : Bool :=
  decide (t.cur.y < t.height) && decide (t.cur.x < t.width)

/-- `TermData::assert_cursor`: panics when the cursor is out of the grid. -/
def assert_cursor (t : TermData) : Except TErr Unit :=
  if is_cursor_valid t then Except.ok () else Except.error TErr.assert_failed

/-- `TermData::carriage_return`. -/
def carriage_return (t : TermData) : TermData :=
  { t with cur := { t.cur with x := 0 } }

/-- The inner `for j in 0..self.width` loop filling row `i` of `tmp` with
spaces, shared by both scroll directions. -/
def fill_spaces_row (w i : Nat) (tmp : List (List Byte)) : Except TErr (List (List Byte)) :=
  (List.range w).foldlM (fun tmp2 j => liftOpt (gridSet tmp2 i j 32)) tmp

/-- Loop body of `TermData::scroll_up_relative` for index `i`: copy
`self.buf[i + num]` into `tmp[i]` when still inside the region, else blank
`tmp[i]`. -/
def scroll_up_step (t : TermData) (num : Nat) (tmp : List (List Byte)) (i : Nat) :
    Except TErr (List (List Byte)) :=
  if i + num < t.scroll_range.2 then
    match t.buf[i + num]? with
    | some row =>
      if i < tmp.length then pure (tmp.set i row) else Except.error TErr.oob
    | none => Except.error TErr.oob
  else
    fill_spaces_row t.width i tmp

/-- `TermData::scroll_up_relative`: reads rows from the original buffer while
building `tmp`, exactly as the source clones `self.buf` first. -/
def scroll_up_relative (t : TermData) (origin num : Nat) : Except TErr TermData := do
  let tmp ← (List.range' origin (t.scroll_range.2 - origin)).foldlM (scroll_up_step t num) t.buf
  pure { t with buf := tmp }

/-- Loop body of `TermData::scroll_down_relative` for index `i`. -/
def scroll_down_step (t : TermData) (num : Nat) (tmp : List (List Byte)) (i : Nat) :
    Except TErr (List (List Byte)) :=
  if i + num < t.scroll_range.2 then
    match t.buf[i]? with
    | some row =>
      if i + num < tmp.length then pure (tmp.set (i + num) row) else Except.error TErr.oob
    | none => Except.error TErr.oob
  else
    fill_spaces_row t.width i tmp

/-- `TermData::scroll_down_relative`. -/
def scroll_down_relative (t : TermData) (origin num : Nat) : Except TErr TermData := do
  let tmp ← (List.range' origin (t.scroll_range.2 - origin)).foldlM (scroll_down_step t num) t.buf
  pure { t with buf := tmp }

/-- `TermData::scroll_up`. -/
def scroll_up (t : TermData) (num : Nat) : Except TErr TermData :=
  scroll_up_relative t t.scroll_range.1 num

/-- `TermData::scroll_down`. -/
def scroll_down (t : TermData) (num : Nat) : Except TErr TermData :=
  scroll_down_relative t t.scroll_range.1 num

/-- `TermData::linefeed` (the source's `nxt` is `cur.y + 1`). -/
def linefeed (t : TermData) : Except TErr TermData :=
  if t.cur.y + 1 = t.scroll_range.2 then scroll_up t 1
  else if t.cur.y + 1 < t.height then Except.ok { t with cur := { t.cur with y := t.cur.y + 1 } }
  else Except.ok t

/-- `TermData::backspace`. -/
def backspace (t : TermData) : TermData :=
  if t.cur.x > 0 then { t with cur := { t.cur with x := t.cur.x - 1 } } else t

/-- `TermData::newline`. -/
def newline (t : TermData) : Except TErr TermData := do
  let t ← linefeed t
  if t.mode.line_feed_new_line then pure (carriage_return t) else pure t

/-- `TermData::add_x` (no bound check in the source). -/
def add_x (t : TermData) (num : Nat) : TermData :=
  { t with cur := { t.cur with x := t.cur.x + num } }

/-- `TermData::add_y`: increments then asserts `cur.y < height`. -/
def add_y (t : TermData) (num : Nat) : Except TErr TermData :=
  if t.cur.y + num < t.height then Except.ok { t with cur := { t.cur with y := t.cur.y + num } }
  else Except.error TErr.assert_failed

/-- `TermData::sub_x`: asserts `cur.x >= num` before subtracting. -/
def sub_x (t : TermData) (num : Nat) : Except TErr TermData :=
  if num ≤ t.cur.x then Except.ok { t with cur := { t.cur with x := t.cur.x - num } }
  else Except.error TErr.assert_failed

/-- `TermData::sub_y`: asserts `cur.y >= num` before subtracting. -/
def sub_y (t : TermData) (num : Nat) : Except TErr TermData :=
  if num ≤ t.cur.y then Except.ok { t with cur := { t.cur with y := t.cur.y - num } }
  else Except.error TErr.assert_failed

/-- `TermData::goto_x` (no bound check in the source). -/
def goto_x (t : TermData) (num : Nat) : TermData :=
  { t with cur := { t.cur with x := num } }

/-- `TermData::goto_y`: sets then asserts `cur.y < height`. -/
def goto_y (t : TermData) (num : Nat) : Except TErr TermData :=
  if num < t.height then Except.ok { t with cur := { t.cur with y := num } }
  else Except.error TErr.assert_failed

/-- `TermData::goto` (no bound check in the source). -/
def goto (t : TermData) (c : Cursor) : TermData :=
  { t with cur := c }

/-- Body of `TermData::input`'s while loop, fuelled; each iteration subtracts
`width` from `cur.x` and linefeeds.  The fuel never runs out when
`0 < width` (the source loop diverges when `width = 0` and LINE_WRAP is set;
`TErr.fuel_out` models that divergence). -/
def inputAux (c : Byte) : Nat → TermData → Except TErr TermData
  | fuel, t =>
    if t.width ≤ t.cur.x then
      if t.mode.line_wrap = false then Except.ok t
      else
        match fuel with
        | 0 => Except.error TErr.fuel_out
        | fuel2 + 1 => do
          let t1 := { t with cur := { t.cur with x := t.cur.x - t.width } }
          let t2 ← linefeed t1
          inputAux c fuel2 t2
    else
      match assert_cursor t with
      | Except.error e => Except.error e
      | Except.ok _ => do
        let buf2 ← liftOpt (gridSet t.buf t.cur.y t.cur.x c)
        pure { t with buf := buf2, preceeding := some c,
                      cur := { t.cur with x := t.cur.x + 1 } }

/-- `TermData::input`. -/
def input (t : TermData) (c : Byte) : Except TErr TermData :=
  inputAux c (t.cur.x + 1) t

/-- `enum ClearMode`. -/
inductive ClearMode where
  | Below
  | Above
  | All
  | Saved
deriving Repr, DecidableEq

/-- `enum LineClearMode`. -/
inductive LineClearMode where
  | Right
  | Left
  | All
deriving Repr, DecidableEq

/-- `TermData::clear_scr`. -/
def clear_scr (t : TermData) (mode : ClearMode) : Except TErr TermData :=
  match mode with
  | ClearMode.All => do
    let buf ← (List.range t.height).foldlM
      (fun (b : List (List Byte)) i =>
        (List.range t.width).foldlM (fun b2 j => liftOpt (gridSet b2 i j 32)) b)
      t.buf
    pure { t with buf := buf }
  | ClearMode.Above => do
    let buf ← (List.range t.cur.y).foldlM
      (fun (b : List (List Byte)) i =>
        (List.range t.width).foldlM (fun b2 j => liftOpt (gridSet b2 i j 32)) b)
      t.buf
    let buf ← (List.range (t.cur.x + 1)).foldlM
      (fun (b : List (List Byte)) j => liftOpt (gridSet b t.cur.y j 32)) buf
    pure { t with buf := buf }
  | ClearMode.Below => do
    let buf ← (List.range' (t.cur.y + 1) (t.height - (t.cur.y + 1))).foldlM
      (fun (b : List (List Byte)) i =>
        (List.range t.width).foldlM (fun b2 j => liftOpt (gridSet b2 i j 32)) b)
      t.buf
    let buf ← (List.range' t.cur.x (t.width - t.cur.x)).foldlM
      (fun (b : List (List Byte)) j => liftOpt (gridSet b t.cur.y j 32)) buf
    pure { t with buf := buf }
  | ClearMode.Saved => pure t

/-- `TermData::clear_line`. -/
def clear_line (t : TermData) (mode : LineClearMode) : Except TErr TermData :=
  match mode with
  | LineClearMode.Right => do
    let buf ← (List.range' t.cur.x (t.width - t.cur.x)).foldlM
      (fun (b : List (List Byte)) i => liftOpt (gridSet b t.cur.y i 32)) t.buf
    pure { t with buf := buf }
  | LineClearMode.Left => do
    let buf ← (List.range (t.cur.x + 1)).foldlM
      (fun (b : List (List Byte)) i => liftOpt (gridSet b t.cur.y i 32)) t.buf
    pure { t with buf := buf }
  | LineClearMode.All => do
    let buf ← (List.range t.width).foldlM
      (fun (b : List (List Byte)) i => liftOpt (gridSet b t.cur.y i 32)) t.buf
    pure { t with buf := buf }

/-- `LineRange::contains`. -/
def range_contains (r : Nat × Nat) (u : Nat) : Bool :=
  decide (r.1 ≤ u) && decide (u < r.2)

/-- `TermData::insert_blank_lines`. -/
def insert_blank_lines (t : TermData) (num : Nat) : Except TErr TermData :=
  if range_contains t.scroll_range t.cur.y then
    scroll_down_relative t t.cur.y num
  else Except.ok t

/-- `TermData::delete_lines`. -/
def delete_lines (t : TermData) (num : Nat) : Except TErr TermData :=
  if range_contains t.scroll_range t.cur.y then
    scroll_up_relative t t.cur.y num
  else Except.ok t

/-- `TermData::insert_blank_chars`: note the source reads
`self.buf[self.cur.y][j + num]` for `j >= cur.x + num`, which indexes past the
row end whenever `cur.x + num < width`. -/
def insert_blank_chars (t : TermData) (num : Nat) : Except TErr TermData := do
  let tmp ← (List.range t.width).foldlM
    (fun (tmp : List Byte) j =>
      if j < t.cur.x then
        match gridGet t.buf t.cur.y j with
        | some c => pure (tmp.set j c)
        | none => Except.error TErr.oob
      else if t.cur.x + num ≤ j then
        match gridGet t.buf t.cur.y (j + num) with
        | some c => pure (tmp.set j c)
        | none => Except.error TErr.oob
      else pure tmp)
    (List.replicate t.width 32)
  if t.cur.y < t.buf.length then pure { t with buf := t.buf.set t.cur.y tmp }
  else Except.error TErr.oob

/-- `TermData::erase_chars`. -/
def erase_chars (t : TermData) (num : Nat) : Except TErr TermData := do
  let buf ← (List.range' t.cur.x (min (t.cur.x + num) t.width - t.cur.x)).foldlM
    (fun (b : List (List Byte)) j => liftOpt (gridSet b t.cur.y j 32)) t.buf
  pure { t with buf := buf }

/-- `TermData::delete_chars`. -/
def delete_chars (t : TermData) (num : Nat) : Except TErr TermData := do
  let tmp ← (List.range t.width).foldlM
    (fun (tmp : List Byte) j =>
      if j < t.cur.x then
        match gridGet t.buf t.cur.y j with
        | some c => pure (tmp.set j c)
        | none => Except.error TErr.oob
      else if j + num < t.width then
        match gridGet t.buf t.cur.y (j + num) with
        | some c => pure (tmp.set j c)
        | none => Except.error TErr.oob
      else pure tmp)
    (List.replicate t.width 32)
  if t.cur.y < t.buf.length then pure { t with buf := t.buf.set t.cur.y tmp }
  else Except.error TErr.oob

/-- `TermData::deccolm` (empty body). -/
def deccolm (t : TermData) : TermData := t

/-- `TermData::save_cursor`. -/
def save_cursor (t : TermData) : TermData :=
  { t with saved_cur := t.cur }

/-- `TermData::restore_cursor`. -/
def restore_cursor (t : TermData) : TermData :=
  { t with cur := t.saved_cur }

/-- `TermData::set_keyboard_app_mode`: inserts APP_KEYPAD. -/
def set_keyboard_app_mode (t : TermData) : TermData :=
  { t with mode := { t.mode with app_keypad := true } }

/-- `TermData::unset_keyboard_app_mode`: removes APP_KEYPAD. -/
def unset_keyboard_app_mode (t : TermData) : TermData :=
  { t with mode := { t.mode with app_keypad := false } }

/-- `TermData::reverse_index`. -/
def reverse_index (t : TermData) : Except TErr TermData :=
  if t.cur.y = t.scroll_range.1 then scroll_down t 1
  else if t.cur.y > 0 then sub_y t 1
  else Except.ok t

/-- `enum ModeInt`. -/
inductive ModeInt where
  | CursorKeys
  | DECCOLM
  | Insert
  | Origin
  | LineWrap
  | BlinkingCursor
  | LineFeedNewLine
  | ShowCursor
  | ReportMouseClicks
  | ReportMouseMotion
  | ReportFocusInOut
  | SgrMouse
  | SwapScreenAndSetRestoreCursor
  | BracketedPaste
deriving Repr, DecidableEq

/-- `ModeInt::from_primitive`. -/
def ModeInt.from_primitive (priv : Bool) (num : Int) : Option ModeInt :=
  if priv then
    if num = 1 then some ModeInt.CursorKeys
    else if num = 3 then some ModeInt.DECCOLM
    else if num = 6 then some ModeInt.Origin
    else if num = 7 then some ModeInt.LineWrap
    else if num = 12 then some ModeInt.BlinkingCursor
    else if num = 25 then some ModeInt.ShowCursor
    else if num = 1000 then some ModeInt.ReportMouseClicks
    else if num = 1002 then some ModeInt.ReportMouseMotion
    else if num = 1004 then some ModeInt.ReportFocusInOut
    else if num = 1006 then some ModeInt.SgrMouse
    else if num = 1049 then some ModeInt.SwapScreenAndSetRestoreCursor
    else if num = 2004 then some ModeInt.BracketedPaste
    else none
  else
    if num = 4 then some ModeInt.Insert
    else if num = 20 then some ModeInt.LineFeedNewLine
    else none

/-- `TermData::unset_mode`: note the 1049 arm calls `restore_cursor`. -/
def unset_mode (t : TermData) (m : ModeInt) : TermData :=
  match m with
  | ModeInt.SwapScreenAndSetRestoreCursor => restore_cursor t
  | ModeInt.ShowCursor => { t with mode := { t.mode with show_cursor := false } }
  | ModeInt.CursorKeys => { t with mode := { t.mode with app_cursor := false } }
  | ModeInt.ReportMouseClicks => { t with mode := { t.mode with mouse_report_click := false } }
  | ModeInt.ReportMouseMotion => { t with mode := { t.mode with mouse_motion := false } }
  | ModeInt.ReportFocusInOut => { t with mode := { t.mode with focus_in_out := false } }
  | ModeInt.BracketedPaste => { t with mode := { t.mode with bracketed_paste := false } }
  | ModeInt.SgrMouse => { t with mode := { t.mode with sgr_mouse := false } }
  | ModeInt.LineWrap => { t with mode := { t.mode with line_wrap := false } }
  | ModeInt.LineFeedNewLine => { t with mode := { t.mode with line_feed_new_line := false } }
  | ModeInt.Origin => { t with mode := { t.mode with origin := false } }
  | ModeInt.DECCOLM => deccolm t
  | ModeInt.Insert => { t with mode := { t.mode with insert_mode := false } }
  | ModeInt.BlinkingCursor => t

/-- `TermData::set_mode`: note the 1049 arm also calls `restore_cursor` (not
`save_cursor`). -/
def set_mode (t : TermData) (m : ModeInt) : TermData :=
  match m with
  | ModeInt.SwapScreenAndSetRestoreCursor => restore_cursor t
  | ModeInt.ShowCursor => { t with mode := { t.mode with show_cursor := true } }
  | ModeInt.CursorKeys => { t with mode := { t.mode with app_cursor := true } }
  | ModeInt.ReportMouseClicks => { t with mode := { t.mode with mouse_report_click := true } }
  | ModeInt.ReportMouseMotion => { t with mode := { t.mode with mouse_motion := true } }
  | ModeInt.ReportFocusInOut => { t with mode := { t.mode with focus_in_out := true } }
  | ModeInt.BracketedPaste => { t with mode := { t.mode with bracketed_paste := true } }
  | ModeInt.SgrMouse => { t with mode := { t.mode with sgr_mouse := true } }
  | ModeInt.LineWrap => { t with mode := { t.mode with line_wrap := true } }
  | ModeInt.LineFeedNewLine => { t with mode := { t.mode with line_feed_new_line := true } }
  | ModeInt.Origin => { t with mode := { t.mode with origin := true } }
  | ModeInt.DECCOLM => deccolm t
  | ModeInt.Insert => { t with mode := { t.mode with insert_mode := true } }
  | ModeInt.BlinkingCursor => t

/-- The `args_or` closure in `TermData::csi_dispatch`. -/
def args_or (args : List Int) (id : Nat) (default : Int) : Int :=
  if h : id < args.length then args.get ⟨id, h⟩ else default

/-- Rust `as usize` on an `i64`: wrapping reinterpretation mod 2^64. -/
def as_usize (i : Int) : Nat := (i % (2 ^ 64 : Int)).toNat

/-- `usize` subtraction of 1 as in `args_or(..) as usize - 1`; underflow is a
debug-build panic. -/
def usize_sub1 (n : Nat) : Except TErr Nat :=
  if n = 0 then Except.error TErr.overflow else Except.ok (n - 1)

/-- `Perform::csi_dispatch` for `TermData` (the `_ignore` argument is unused in
the source and omitted).  `action` is the final character; unhandled cases
(including the `unhandled!` macro arms, which just log and return) leave the
state unchanged. -/
def csi_dispatch (t : TermData) (args : List Int) (intermediates : List Byte)
    (action : Char) : Except TErr TermData :=
  let priv : Bool := intermediates.head? = some 0x3f
  if action = '@' then insert_blank_chars t (as_usize (args_or args 0 1))
  else if action = 'A' then sub_y t (as_usize (args_or args 0 1))
  else if action = 'b' then
    match t.preceeding with
    | some c => (List.range (args_or args 0 1).toNat).foldlM (fun t2 _ => input t2 c) t
    | none => Except.ok t
  else if action = 'B' ∨ action = 'e' then add_y t (as_usize (args_or args 0 1))
  else if action = 'C' ∨ action = 'a' then Except.ok (add_x t (as_usize (args_or args 0 1)))
  else if action = 'D' then sub_x t (as_usize (args_or args 0 1))
  else if action = 'E' then do
    let t2 ← add_y t (as_usize (args_or args 0 1))
    pure (carriage_return t2)
  else if action = 'F' then do
    let t2 ← sub_y t (as_usize (args_or args 0 1))
    pure (carriage_return t2)
  else if action = 'G' ∨ action = Char.ofNat 96 then do
    let n ← usize_sub1 (as_usize (args_or args 0 1))
    pure (goto_x t n)
  else if action = 'H' ∨ action = 'f' then do
    let y ← usize_sub1 (as_usize (args_or args 0 1))
    let x ← usize_sub1 (as_usize (args_or args 1 1))
    pure (goto t ⟨x, y⟩)
  else if action = 'J' then
    let a := args_or args 0 0
    if a = 0 then clear_scr t ClearMode.Below
    else if a = 1 then clear_scr t ClearMode.Above
    else if a = 2 then clear_scr t ClearMode.All
    else if a = 3 then clear_scr t ClearMode.Saved
    else Except.ok t
  else if action = 'K' then
    let a := args_or args 0 0
    if a = 0 then clear_line t LineClearMode.Right
    else if a = 1 then clear_line t LineClearMode.Left
    else if a = 2 then clear_line t LineClearMode.All
    else Except.ok t
  else if action = 'S' then scroll_up t (as_usize (args_or args 0 1))
  else if action = 'T' then scroll_down t (as_usize (args_or args 0 1))
  else if action = 'L' then insert_blank_lines t (as_usize (args_or args 0 1))
  else if action = 'l' then
    match ModeInt.from_primitive priv (args_or args 0 0) with
    | some m => Except.ok (unset_mode t m)
    | none => Except.ok t
  else if action = 'M' then delete_lines t (as_usize (args_or args 0 1))
  else if action = 'X' then erase_chars t (as_usize (args_or args 0 1))
  else if action = 'P' then delete_chars t (as_usize (args_or args 0 1))
  else if action = 'd' then do
    let n ← usize_sub1 (as_usize (args_or args 0 1))
    goto_y t n
  else if action = 'h' then
    match ModeInt.from_primitive priv (args_or args 0 0) with
    | some m => Except.ok (set_mode t m)
    | none => Except.ok t
  else if action = 'r' then
    if priv then Except.ok t
    else do
      let top ← usize_sub1 (as_usize (args_or args 0 1))
      let bottom := as_usize (args_or args 1 (t.height : Int))
      pure { t with scroll_range := (top, bottom) }
  else if action = 's' then Except.ok (save_cursor t)
  else if action = 'u' then Except.ok (restore_cursor t)
  else Except.ok t

/-- `Perform::esc_dispatch` for `TermData`; `byte` is the final byte.  The
`#8` DECALN case reaches `unimplemented!`. -/
def esc_dispatch (t : TermData) (_params : List Int) (intermediates : List Byte)
    (byte : Byte) : Except TErr TermData :=
  if byte = 0x44 then add_y t 1
  else if byte = 0x45 then do
    let t2 ← add_y t 1
    pure (goto_x t2 0)
  else if byte = 0x4d then reverse_index t
  else if byte = 0x37 then Except.ok (save_cursor t)
  else if byte = 0x38 then
    if intermediates ≠ [] ∧ intermediates.head? = some 0x23 then Except.error TErr.unimpl
    else Except.ok (restore_cursor t)
  else if byte = 0x3e then Except.ok (set_keyboard_app_mode t)
  else if byte = 0x3d then Except.ok (unset_keyboard_app_mode t)
  else if byte = 0x5c then Except.ok t
  else Except.ok t

/-- `Perform::execute` for `TermData`: BS/CR/LF|VT|FF/NEL; others only warn. -/
def execute (t : TermData) (byte : Byte) : Except TErr TermData :=
  if byte = 0x08 then Except.ok (backspace t)
  else if byte = 0x0d then Except.ok (carriage_return t)
  else if byte = 0x0a ∨ byte = 0x0b ∨ byte = 0x0c then linefeed t
  else if byte = 0x85 then newline t
  else Except.ok t

/-- `Perform::print` for `TermData`: stores the low byte of the char (non-ASCII
only warns); the byte is passed directly here. -/
def print (t : TermData) (c : Byte) : Except TErr TermData :=
  input t c

/-- Modelled from the spec: `parser.advance` belongs to the external vte crate,
which the spec places out of scope ("assumed available as a library conforming
to the standard VT state machine").  Only the ground-state behaviour needed by
the driver-scenario claim is modelled: a printable byte (0x20-0x7e) is
dispatched to `print`, other bytes to `execute`.  Escape sequences are not
modelled. -/
def advance (t : TermData) (b : Byte) : Except TErr TermData :=
  if 0x20 ≤ b ∧ b ≤ 0x7e then print t b else execute t b

/-- `enum Handle<Vec<u8>>` from lib.rs: the reader-to-driver channel events. -/
inductive Handle where
  | Panicked
  | Zero
  | Valid (bytes : List Byte)
deriving Repr, DecidableEq

/-- Result of `recv_timeout` on the driver channel. -/
inductive RecvRes where
  | ok (h : Handle)
  | timeoutErr
  | disconnectedErr
deriving Repr, DecidableEq

/-- `enum ActionResult`. -/
inductive ActionResult where
  | Changed (m : List (List Byte))
  | NotChanged
  | GameEnded
deriving Repr, DecidableEq

/-- Driver-loop state for `GameEnv::play`: the pending receive results stand in
for the reader channel, and `calls` records each AI invocation `(turn, arg)` in
order.  Bytes returned by the AI go to the mocked child's stdin and do not feed
back. -/
structure PlaySt where
  recvs : List RecvRes
  term : TermData
  proc_dead : Bool
  stored_map : Option (List (List Byte))
  calls : List (Nat × ActionResult)
deriving Repr, DecidableEq

/-- One iteration `i` of the `for i in 0..max_loop` loop in `GameEnv::play`;
the returned Bool is true when the loop `break`s.  An exhausted receive list
models a disconnected channel (the reader thread has exited and dropped its
sender). -/
def playIter (ai : ActionResult → Nat → Option (List Byte)) (i : Nat) (s : PlaySt) :
    Except TErr (PlaySt × Bool) := do
  if s.proc_dead then
    pure (s, true)
  else do
    let (evt, s2) ← (do
      match s.recvs with
      | [] => Except.error TErr.disconnected
      | r :: rest =>
        match r with
        | RecvRes.timeoutErr => pure (ActionResult.NotChanged, { s with recvs := rest })
        | RecvRes.disconnectedErr => Except.error TErr.disconnected
        | RecvRes.ok h =>
          match h with
          | Handle.Panicked => Except.error TErr.child_panicked
          | Handle.Zero =>
            pure (ActionResult.GameEnded, { s with recvs := rest, proc_dead := true })
          | Handle.Valid bytes => do
            let term ← bytes.foldlM advance s.term
            pure (ActionResult.Changed (ret_screen term),
                  { s with recvs := rest, term := term })
      : Except TErr (ActionResult × PlaySt))
    match evt with
    | ActionResult.GameEnded =>
      let _ := ai ActionResult.GameEnded i
      pure ({ s2 with calls := s2.calls ++ [(i, ActionResult.GameEnded)] }, false)
    | ActionResult.Changed m =>
      pure ({ s2 with stored_map := some m }, false)
    | ActionResult.NotChanged =>
      match s2.stored_map with
      | some m =>
        let _ := ai (ActionResult.Changed m) i
        pure ({ s2 with stored_map := none,
                        calls := s2.calls ++ [(i, ActionResult.Changed m)] }, false)
      | none =>
        let _ := ai ActionResult.NotChanged i
        pure ({ s2 with calls := s2.calls ++ [(i, ActionResult.NotChanged)] }, false)

/-- The `for i in 0..max_loop` loop of `GameEnv::play`, by remaining iteration
count. -/
def playLoop (ai : ActionResult → Nat → Option (List Byte)) :
    Nat → Nat → PlaySt → Except TErr PlaySt
  | 0, _, s => pure s
  | n + 1, i, s => do
    let (s2, broke) ← playIter ai i s
    if broke then pure s2 else playLoop ai n (i + 1) s2

/-- `GameEnv::play`: run the loop, then if the process did not die, kill it and
invoke the AI once more with GameEnded at turn `max_loop`. -/
def play (ai : ActionResult → Nat → Option (List Byte)) (max_loop : Nat)
    (recvs : List RecvRes) (t : TermData) : Except TErr PlaySt := do
  let s ← playLoop ai max_loop 0 ⟨recvs, t, false, none, []⟩
  if !s.proc_dead then
    let _ := ai ActionResult.GameEnded max_loop
    pure { s with calls := s.calls ++ [(max_loop, ActionResult.GameEnded)] }
  else
    pure s

/-- `BUFSIZE` in `ProcHandler::run`. -/
def BUFSIZE : Nat := 4096

/-- One blocking read by the reader thread: an I/O error, or `n` bytes read
leaving the 4096-byte buffer holding `buf`. -/
inductive ReadResult where
  | ioError
  | okRead (buf : List Byte) (n : Nat)
deriving Repr, DecidableEq

/-- What the reader thread does after publishing one event. -/
inductive ReaderOutcome where
  | continues
  | terminated
  | aborted
deriving Repr, DecidableEq

/-- Body of the reader loop in `ProcHandler::run`: `Err` sends Panicked and
panics; `Ok(0)` sends Zero and breaks; `Ok(BUFSIZE)` sends Panicked and panics;
`Ok(n)` sends `Valid(readbuf[0..n])` and continues. -/
def reader_step (r : ReadResult) : Handle × ReaderOutcome :=
  match r with
  | ReadResult.ioError => (Handle.Panicked, ReaderOutcome.aborted)
  | ReadResult.okRead buf n =>
    if n = 0 then (Handle.Zero, ReaderOutcome.terminated)
    else if n = BUFSIZE then (Handle.Panicked, ReaderOutcome.aborted)
    else (Handle.Valid (buf.take n), ReaderOutcome.continues)

/-! ### Concrete fixtures used by the claim theorems -/

/-- A fresh 2-line, 3-column terminal. -/
def term2x3 : TermData := from_setting 2 3

/-- A 1x3 terminal whose single row holds the bytes of abc, cursor at (0,0). -/
def term1x3abc : TermData := { from_setting 1 3 with buf := [[97, 98, 99]] }

/-- A 2x3 terminal whose cursor was moved to (1,1) (saved cursor still (0,0)). -/
def term2x3cur : TermData := { term2x3 with cur := ⟨1, 1⟩ }

/-- A fresh 24x80 terminal (the GameSetting defaults). -/
def term24x80 : TermData := from_setting 24 80

/-- The driver-scenario AI: always answers with the byte of q. -/
def aiQ : ActionResult → Nat → Option (List Byte) := fun _ _ => some [113]

/-- The driver-scenario mock child: one read yielding the byte of a, then a
zero-byte read. -/
def recvsC1 : List RecvRes := [RecvRes.ok (Handle.Valid [97]), RecvRes.ok Handle.Zero]

/-! ### Derived notions used in claim statements -/

/-- The grid has exactly `h` rows of exactly `w` cells each. -/
def gridShape (buf : List (List Byte)) (h w : Nat) : Prop :=
  buf.length = h ∧ ∀ row ∈ buf, row.length = w

/-- The cursor-movement operations named by the save/restore round-trip claim,
as a syntax of commands. -/
inductive MoveOp where
  | carriageReturnOp
  | linefeedOp
  | newlineOp
  | backspaceOp
  | addXOp (n : Nat)
  | subXOp (n : Nat)
  | addYOp (n : Nat)
  | subYOp (n : Nat)
  | gotoXOp (n : Nat)
  | gotoYOp (n : Nat)
  | gotoOp (c : Cursor)
  | reverseIndexOp
deriving Repr, DecidableEq

/-- Interpret one movement operation by the corresponding TermData method. -/
def applyMove (t : TermData) : MoveOp → Except TErr TermData
  | MoveOp.carriageReturnOp => Except.ok (carriage_return t)
  | MoveOp.linefeedOp => linefeed t
  | MoveOp.newlineOp => newline t
  | MoveOp.backspaceOp => Except.ok (backspace t)
  | MoveOp.addXOp n => Except.ok (add_x t n)
  | MoveOp.subXOp n => sub_x t n
  | MoveOp.addYOp n => add_y t n
  | MoveOp.subYOp n => sub_y t n
  | MoveOp.gotoXOp n => Except.ok (goto_x t n)
  | MoveOp.gotoYOp n => goto_y t n
  | MoveOp.gotoOp c => Except.ok (goto t c)
  | MoveOp.reverseIndexOp => reverse_index t

/-- Run a sequence of movement operations. -/
def applyMoves (t : TermData) (ops : List MoveOp) : Except TErr TermData :=
  ops.foldlM applyMove t

/-! ### Claim theorems -/

/-- C1 counterexample: with max_loop=3, the mock child emitting Valid "a" then
Zero, and the always-q AI, no AI invocation happens at turn 0 at all — the list
of turn-0 invocations is empty, refuting the claim that the AI is invoked at
turn 0 with Changed. -/
theorem C1_counterexample :
    (play aiQ 3 recvsC1 term2x3).map
        (fun s => (s.calls.filter (fun p => p.1 = 0), s.calls))
      = Except.ok ([], [(1, ActionResult.GameEnded)]) := by rfl

/-- C1 amended: in the same scenario the AI is invoked only once, at turn 1
with GameEnded, after which the loop ends; the turn-0 Changed grid (holding the
byte of a at row 0, column 0) is stored in stored_map and never delivered,
because a Changed event only stores the map and does not call the AI. -/
theorem C1_amended_run :
    (play aiQ 3 recvsC1 term2x3).map
        (fun s => (s.calls, s.stored_map.bind (fun g => gridGet g 0 0)))
      = Except.ok ([(1, ActionResult.GameEnded)], some 97) := by rfl

/-- C2: insert_blank_chars(1) on a 1x3 grid with cursor (0,0) panics with an
index out of bounds instead of shifting the row right: the source reads
buf[y][j + n] past the row end whenever x + n < W. -/
theorem C2_insert_blank_chars_panics :
    insert_blank_chars term1x3abc 1 = Except.error TErr.oob := by rfl

/-- C3: the byte stream ESC [ 5 ; 5 H (CSI 5;5H) completes on a 2x3 screen and
leaves the cursor at (4,4), outside the grid — goto does not clamp — and the
next printable byte then trips the emulator's own assert_cursor. -/
theorem C3_cursor_escapes_grid :
    (csi_dispatch term2x3 [5, 5] [] 'H').map
        (fun t => (t.cur.x, t.cur.y, decide (t.cur.y < t.height ∧ t.cur.x < t.width)))
      = Except.ok (4, 4, false)
  ∧ (csi_dispatch term2x3 [5, 5] [] 'H').bind (fun t => print t 97)
      = Except.error TErr.assert_failed :=
  ⟨by rfl, by rfl⟩

/-- C4 counterexample: CSI 5;2r on a fresh 24x80 terminal stores the scroll
region (4, 2), which violates top < bottom — the dispatch performs no
validation. -/
theorem C4_counterexample :
    (csi_dispatch term24x80 [5, 2] [] 'r').map
        (fun t => (t.scroll_range, decide (t.scroll_range.1 < t.scroll_range.2)))
      = Except.ok ((4, 2), false) := by rfl

/-- Unfolding of the non-private CSI r arm on a two-argument list. -/
theorem csi_r_eq (t : TermData) (a0 a1 : Int) :
    csi_dispatch t [a0, a1] [] 'r'
      = (usize_sub1 (as_usize a0)).bind
          (fun top => Except.ok { t with scroll_range := (top, as_usize a1) }) := rfl

/-- C4 amended: CSI r with arguments a0, a1 (1 ≤ a0 < 2^64, non-private) sets
the scroll region to (a0 - 1, a1 as usize) with no validation whatsoever, so
the invariant 0 ≤ top < bottom ≤ H holds of the initial region [0, H) but is
not preserved by CSI r dispatch. -/
theorem C4_csi_r_unvalidated (t : TermData) (a0 a1 : Int)
    (h0 : 1 ≤ a0) (h1 : a0 < 2 ^ 64) :
    csi_dispatch t [a0, a1] [] 'r'
      = Except.ok { t with scroll_range := (as_usize a0 - 1, as_usize a1) } := by
  rw [csi_r_eq]
  have hm : a0 % (2 ^ 64 : Int) = a0 := Int.emod_eq_of_lt (by omega) h1
  have hz : as_usize a0 ≠ 0 := by
    unfold as_usize
    rw [hm]
    omega
  unfold usize_sub1
  rw [if_neg hz]
  rfl

/-- C4 amended witness: the amended statement instantiated at the fresh 24x80
terminal and CSI 5;2r. -/
theorem C4_csi_r_unvalidated_witness :
    csi_dispatch term24x80 [5, 2] [] 'r'
      = Except.ok { term24x80 with scroll_range := (as_usize 5 - 1, as_usize 2) } :=
  C4_csi_r_unvalidated term24x80 5 2 (by decide) (by decide)

/-- C5: on the fresh 2x3 terminal, whose APP_KEYPAD flag is clear,
esc_dispatch with final byte 0x3e (the byte of >) inserts APP_KEYPAD, and with
final byte 0x3d (the byte of =) on a state with the flag set it removes it —
exactly the opposite of the claim (and of DECKPNM/DECKPAM). -/
theorem C5_keypad_bytes_swapped :
    term2x3.mode.app_keypad = false
  ∧ (esc_dispatch term2x3 [] [] 0x3e).map (fun t => t.mode.app_keypad)
      = Except.ok true
  ∧ (esc_dispatch { term2x3 with mode := { term2x3.mode with app_keypad := true } }
        [] [] 0x3d).map (fun t => t.mode.app_keypad)
      = Except.ok false :=
  ⟨rfl, rfl, rfl⟩

/-- C6: on a 2x3 terminal with cursor (1,1) and saved cursor (0,0), CSI ? 1049 h
(set) copies the SAVED cursor into the current cursor — set_mode calls
restore_cursor, not save_cursor — so afterwards the cursor is (0,0) and the
saved slot still holds (0,0), not (1,1) as the claim requires; CSI ? 1049 l
(unset) performs the same restore. -/
theorem C6_mode1049_set_restores :
    term2x3cur.cur = ⟨1, 1⟩
  ∧ term2x3cur.saved_cur = ⟨0, 0⟩
  ∧ csi_dispatch term2x3cur [1049] [0x3f] 'h'
      = Except.ok { term2x3cur with cur := ⟨0, 0⟩ }
  ∧ csi_dispatch term2x3cur [1049] [0x3f] 'l'
      = Except.ok { term2x3cur with cur := ⟨0, 0⟩ } :=
  ⟨rfl, rfl, rfl, rfl⟩

/-- C8: one step of the reader task publishes exactly one event determined by
the read result: n bytes with 0 < n < 4096 publish Valid with exactly the first
n bytes and continue; 0 bytes publish Zero and terminate; exactly 4096 bytes
publish Panicked and abort; an I/O error publishes Panicked and aborts. -/
theorem C8_reader_step_events (buf : List Byte) (n : Nat)
    (h0 : 0 < n) (h1 : n < 4096) :
    reader_step (ReadResult.okRead buf n) = (Handle.Valid (buf.take n), ReaderOutcome.continues)
  ∧ reader_step (ReadResult.okRead buf 0) = (Handle.Zero, ReaderOutcome.terminated)
  ∧ reader_step (ReadResult.okRead buf 4096) = (Handle.Panicked, ReaderOutcome.aborted)
  ∧ reader_step ReadResult.ioError = (Handle.Panicked, ReaderOutcome.aborted) := by
  have hn0 : n ≠ 0 := by omega
  have hnB : n ≠ 4096 := by omega
  refine ⟨?_, rfl, rfl, rfl⟩
  simp [reader_step, BUFSIZE, hn0, hnB]

/-- C8 witness: the reader-step behaviour at the concrete read of 2 bytes from
a buffer starting 10, 11, 12. -/
theorem C8_reader_step_events_witness :
    reader_step (ReadResult.okRead [10, 11, 12] 2)
        = (Handle.Valid ([10, 11, 12].take 2), ReaderOutcome.continues)
  ∧ reader_step (ReadResult.okRead [10, 11, 12] 0) = (Handle.Zero, ReaderOutcome.terminated)
  ∧ reader_step (ReadResult.okRead [10, 11, 12] 4096)
      = (Handle.Panicked, ReaderOutcome.aborted)
  ∧ reader_step ReadResult.ioError = (Handle.Panicked, ReaderOutcome.aborted) :=
  C8_reader_step_events [10, 11, 12] 2 (by decide) (by decide)

/-! ### Helper lemmas for the invariant claims -/

/-- Inversion for a successful `Except` bind. -/
theorem except_bind_ok {α β : Type} {e : Except TErr α} {f : α → Except TErr β} {b : β}
    (h : e >>= f = Except.ok b) : ∃ a, e = Except.ok a ∧ f a = Except.ok b := by
  cases e with
  | error err =>
    exact Except.noConfusion (show (Except.error err : Except TErr β) = Except.ok b from h)
  | ok a => exact ⟨a, rfl, h⟩

/-- A monadic fold over `Except` succeeds and preserves an invariant when every
step does. -/
theorem foldlM_except_ok {α β : Type} {P : β → Prop} (f : β → α → Except TErr β) :
    ∀ (l : List α) (b0 : β), P b0 →
      (∀ b a, a ∈ l → P b → ∃ b2, f b a = Except.ok b2 ∧ P b2) →
      ∃ b1, l.foldlM f b0 = Except.ok b1 ∧ P b1 := by
  intro l
  induction l with
  | nil => intro b0 h0 _; exact ⟨b0, rfl, h0⟩
  | cons a l ih =>
    intro b0 h0 hstep
    obtain ⟨b2, hfa, hP2⟩ := hstep b0 a (List.mem_cons_self a l) h0
    obtain ⟨b1, hfold, hP1⟩ :=
      ih b2 hP2 (fun b x hx hb => hstep b x (List.mem_cons_of_mem a hx) hb)
    refine ⟨b1, ?_, hP1⟩
    rw [List.foldlM_cons, hfa]
    exact hfold

/-- A successful monadic fold over `Except` preserves any invariant preserved
by its successful steps. -/
theorem foldlM_except_inv {α β : Type} {P : β → Prop} (f : β → α → Except TErr β) :
    ∀ (l : List α) (b0 b1 : β),
      (∀ b a b2, a ∈ l → P b → f b a = Except.ok b2 → P b2) →
      P b0 → l.foldlM f b0 = Except.ok b1 → P b1 := by
  intro l
  induction l with
  | nil =>
    intro b0 b1 _ h0 h
    rw [List.foldlM_nil] at h
    have h2 : (Except.ok b0 : Except TErr β) = Except.ok b1 := h
    injection h2 with h3
    exact h3 ▸ h0
  | cons a l ih =>
    intro b0 b1 hstep h0 h
    rw [List.foldlM_cons] at h
    cases hfa : f b0 a with
    | error e =>
      rw [hfa] at h
      exact Except.noConfusion (show (Except.error e : Except TErr β) = Except.ok b1 from h)
    | ok b2 =>
      rw [hfa] at h
      exact ih b2 b1 (fun b x b3 hx => hstep b x b3 (List.mem_cons_of_mem a hx))
        (hstep b0 a b2 (List.mem_cons_self a l) h0 hfa) h

/-- Evaluation of `gridSet` when the row lookup succeeds. -/
theorem gridSet_eq_of_row {buf : List (List Byte)} {i : Nat} {row : List Byte}
    (hg : buf[i]? = some row) (j : Nat) (v : Byte) :
    gridSet buf i j v = if j < row.length then some (buf.set i (row.set j v)) else none := by
  unfold gridSet
  rw [hg]

/-- Evaluation of `gridSet` when the row lookup fails. -/
theorem gridSet_eq_none {buf : List (List Byte)} {i : Nat}
    (hg : buf[i]? = none) (j : Nat) (v : Byte) :
    gridSet buf i j v = none := by
  unfold gridSet
  rw [hg]

/-- A successful `gridSet` preserves the grid shape. -/
theorem gridSet_shape {buf buf2 : List (List Byte)} {h w i j : Nat} {v : Byte}
    (hs : gridShape buf h w) (hset : gridSet buf i j v = some buf2) :
    gridShape buf2 h w := by
  cases hg : buf[i]? with
  | none => rw [gridSet_eq_none hg] at hset; cases hset
  | some row =>
    rw [gridSet_eq_of_row hg] at hset
    by_cases hj : j < row.length
    · rw [if_pos hj] at hset
      injection hset with hset2
      subst hset2
      constructor
      · rw [List.length_set]; exact hs.1
      · intro r hr
        rcases List.mem_or_eq_of_mem_set hr with h1 | h2
        · exact hs.2 r h1
        · subst h2
          rw [List.length_set]
          exact hs.2 row (by
            have hi : i < buf.length := by
              by_contra hc
              rw [List.getElem?_eq_none (by omega)] at hg
              cases hg
            have hgg := List.getElem?_eq_getElem hi
            rw [hgg] at hg
            injection hg with hg2
            exact hg2 ▸ List.getElem_mem hi)
    · rw [if_neg hj] at hset; cases hset

/-- `gridSet` succeeds inside the shape bounds. -/
theorem gridSet_ok {buf : List (List Byte)} {h w : Nat} (i j : Nat) (v : Byte)
    (hs : gridShape buf h w) (hi : i < h) (hj : j < w) :
    ∃ buf2, gridSet buf i j v = some buf2 ∧ gridShape buf2 h w := by
  have hi2 : i < buf.length := by rw [hs.1]; exact hi
  have hg : buf[i]? = some (buf[i]) := List.getElem?_eq_getElem hi2
  have hrow : (buf[i]).length = w := hs.2 _ (List.getElem_mem hi2)
  have hset : gridSet buf i j v = some (buf.set i ((buf[i]).set j v)) := by
    rw [gridSet_eq_of_row hg, if_pos (by rw [hrow]; exact hj)]
  exact ⟨_, hset, gridSet_shape hs hset⟩

/-- Blanking one row succeeds and preserves the shape. -/
theorem fill_spaces_row_ok {h w : Nat} {buf : List (List Byte)} (i : Nat)
    (hs : gridShape buf h w) (hi : i < h) :
    ∃ buf2, fill_spaces_row w i buf = Except.ok buf2 ∧ gridShape buf2 h w := by
  unfold fill_spaces_row
  apply foldlM_except_ok (P := fun b => gridShape b h w) _ _ _ hs
  intro b j hj hb
  obtain ⟨b2, hset, hsh⟩ := gridSet_ok i j 32 hb hi (List.mem_range.mp hj)
  refine ⟨b2, ?_, hsh⟩
  rw [hset]
  rfl

/-- `scroll_up_relative` succeeds when the region bottom is inside a
well-shaped grid, and only replaces the buffer, preserving its shape. -/
theorem scroll_up_relative_ok (t : TermData) (o num : Nat)
    (hs : gridShape t.buf t.height t.width) (hr : t.scroll_range.2 ≤ t.height) :
    ∃ buf2, scroll_up_relative t o num = Except.ok { t with buf := buf2 }
      ∧ gridShape buf2 t.height t.width := by
  have hstep : ∀ b i, i ∈ List.range' o (t.scroll_range.2 - o) →
      gridShape b t.height t.width →
      ∃ b2, scroll_up_step t num b i = Except.ok b2 ∧ gridShape b2 t.height t.width := by
    intro b i hi hb
    have hi2 : i < t.scroll_range.2 := by
      have := List.mem_range'_1.mp hi
      omega
    by_cases hin : i + num < t.scroll_range.2
    · have hlt : i + num < t.buf.length := by rw [hs.1]; omega
      have hcopy : scroll_up_step t num b i
          = if i < b.length then pure (b.set i (t.buf[i + num])) else Except.error TErr.oob := by
        unfold scroll_up_step
        rw [if_pos hin, List.getElem?_eq_getElem hlt]
      rw [hcopy, if_pos (by rw [hb.1]; omega)]
      refine ⟨_, rfl, ?_, ?_⟩
      · rw [List.length_set]; exact hb.1
      · intro r hr2
        rcases List.mem_or_eq_of_mem_set hr2 with h1 | h2
        · exact hb.2 r h1
        · subst h2; exact hs.2 _ (List.getElem_mem hlt)
    · have hfill : scroll_up_step t num b i = fill_spaces_row t.width i b := by
        unfold scroll_up_step
        rw [if_neg hin]
      rw [hfill]
      exact fill_spaces_row_ok i hb (by omega)
  obtain ⟨buf2, hfold, hsh⟩ :=
    foldlM_except_ok (P := fun b => gridShape b t.height t.width) (scroll_up_step t num)
      (List.range' o (t.scroll_range.2 - o)) t.buf hs hstep
  refine ⟨buf2, ?_, hsh⟩
  unfold scroll_up_relative
  rw [hfold]
  rfl

/-- A successful `scroll_up_relative` changes only the buffer. -/
theorem scroll_up_relative_inv {t : TermData} {o num : Nat} {t2 : TermData}
    (h : scroll_up_relative t o num = Except.ok t2) :
    ∃ b, t2 = { t with buf := b } := by
  unfold scroll_up_relative at h
  obtain ⟨b, _, h2⟩ := except_bind_ok h
  have h3 : (Except.ok { t with buf := b } : Except TErr TermData) = Except.ok t2 := h2
  injection h3 with h4
  exact ⟨b, h4.symm⟩

/-- A successful `scroll_down_relative` changes only the buffer. -/
theorem scroll_down_relative_inv {t : TermData} {o num : Nat} {t2 : TermData}
    (h : scroll_down_relative t o num = Except.ok t2) :
    ∃ b, t2 = { t with buf := b } := by
  unfold scroll_down_relative at h
  obtain ⟨b, _, h2⟩ := except_bind_ok h
  have h3 : (Except.ok { t with buf := b } : Except TErr TermData) = Except.ok t2 := h2
  injection h3 with h4
  exact ⟨b, h4.symm⟩

/-- Every field of a successful `linefeed` result except the buffer and `cur.y`
matches the input. -/
theorem linefeed_fields {t t2 : TermData} (h : linefeed t = Except.ok t2) :
    t2.cur.x = t.cur.x ∧ t2.width = t.width ∧ t2.height = t.height ∧ t2.mode = t.mode ∧
    t2.saved_cur = t.saved_cur ∧ t2.scroll_range = t.scroll_range := by
  unfold linefeed at h
  by_cases h1 : t.cur.y + 1 = t.scroll_range.2
  · rw [if_pos h1] at h
    unfold scroll_up at h
    obtain ⟨b, hb⟩ := scroll_up_relative_inv h
    subst hb
    exact ⟨rfl, rfl, rfl, rfl, rfl, rfl⟩
  · rw [if_neg h1] at h
    by_cases h2 : t.cur.y + 1 < t.height
    · rw [if_pos h2] at h
      have h3 : (Except.ok { t with cur := { t.cur with y := t.cur.y + 1 } }
          : Except TErr TermData) = Except.ok t2 := h
      injection h3 with h4
      subst h4
      exact ⟨rfl, rfl, rfl, rfl, rfl, rfl⟩
    · rw [if_neg h2] at h
      have h3 : (Except.ok t : Except TErr TermData) = Except.ok t2 := h
      injection h3 with h4
      subst h4
      exact ⟨rfl, rfl, rfl, rfl, rfl, rfl⟩

/-- On a well-shaped grid with the cursor row inside, `linefeed` always
succeeds, keeps the cursor row inside, and changes nothing but the buffer and
`cur.y`. -/
theorem linefeed_ok {t : TermData} (hs : gridShape t.buf t.height t.width)
    (hy : t.cur.y < t.height) :
    ∃ t2, linefeed t = Except.ok t2 ∧ gridShape t2.buf t.height t.width ∧
      t2.cur.y < t.height ∧ t2.cur.x = t.cur.x ∧ t2.width = t.width ∧
      t2.height = t.height ∧ t2.mode = t.mode ∧ t2.saved_cur = t.saved_cur ∧
      t2.scroll_range = t.scroll_range := by
  unfold linefeed
  by_cases h1 : t.cur.y + 1 = t.scroll_range.2
  · rw [if_pos h1]
    unfold scroll_up
    obtain ⟨b, hup, hsh⟩ := scroll_up_relative_ok t t.scroll_range.1 1 hs (by omega)
    exact ⟨_, hup, hsh, hy, rfl, rfl, rfl, rfl, rfl, rfl⟩
  · rw [if_neg h1]
    by_cases h2 : t.cur.y + 1 < t.height
    · rw [if_pos h2]
      exact ⟨_, rfl, hs, h2, rfl, rfl, rfl, rfl, rfl, rfl⟩
    · rw [if_neg h2]
      exact ⟨t, rfl, hs, hy, rfl, rfl, rfl, rfl, rfl, rfl⟩

/-- `inputAux` does not depend on the fuel as long as the fuel covers the
cursor column and the width is positive. -/
theorem inputAux_fuel (c : Byte) :
    ∀ (f1 : Nat) (t : TermData) (f2 : Nat), 0 < t.width → t.cur.x ≤ f1 → t.cur.x ≤ f2 →
      inputAux c f1 t = inputAux c f2 t := by
  intro f1
  induction f1 with
  | zero =>
    intro t f2 hw h1 h2
    unfold inputAux
    simp only [if_neg (show ¬ t.width ≤ t.cur.x by omega)]
  | succ k1 ih =>
    intro t f2 hw h1 h2
    by_cases hge : t.width ≤ t.cur.x
    · cases f2 with
      | zero => omega
      | succ k2 =>
        unfold inputAux
        simp only [if_pos hge]
        by_cases hlw : t.mode.line_wrap = false
        · simp only [if_pos hlw]
        · simp only [if_neg hlw]
          show (linefeed { t with cur := { t.cur with x := t.cur.x - t.width } } >>=
                fun t2 => inputAux c k1 t2)
              = (linefeed { t with cur := { t.cur with x := t.cur.x - t.width } } >>=
                fun t2 => inputAux c k2 t2)
          cases hlf : linefeed { t with cur := { t.cur with x := t.cur.x - t.width } } with
          | error e => rfl
          | ok t2 =>
            show inputAux c k1 t2 = inputAux c k2 t2
            obtain ⟨hx2, hw2, _, _, _, _⟩ := linefeed_fields hlf
            apply ih t2 k2 (by rw [hw2]; exact hw)
            · rw [hx2]
              show t.cur.x - t.width ≤ k1
              omega
            · rw [hx2]
              show t.cur.x - t.width ≤ k2
              omega
    · unfold inputAux
      simp only [if_neg hge]

/-- The write arm of `input`: with the cursor strictly inside a well-shaped
grid, any fuel writes the byte, records it as preceding, and advances x. -/
theorem inputAux_write (c : Byte) (fuel : Nat) (t : TermData)
    (hx : t.cur.x < t.width) (hy : t.cur.y < t.height)
    (hs : gridShape t.buf t.height t.width) :
    ∃ buf2, gridSet t.buf t.cur.y t.cur.x c = some buf2 ∧
      inputAux c fuel t
        = Except.ok { t with buf := buf2, preceeding := some c,
                             cur := { t.cur with x := t.cur.x + 1 } } := by
  obtain ⟨buf2, hset, _⟩ := gridSet_ok t.cur.y t.cur.x c hs hy hx
  refine ⟨buf2, hset, ?_⟩
  have hb : is_cursor_valid t = true := by
    unfold is_cursor_valid
    simp only [Bool.and_eq_true, decide_eq_true_eq]
    exact ⟨hy, hx⟩
  have hv : assert_cursor t = Except.ok () := by
    unfold assert_cursor
    rw [hb]
    rfl
  unfold inputAux
  rw [if_neg (by omega), hv]
  show (liftOpt (gridSet t.buf t.cur.y t.cur.x c) >>= fun buf2 =>
      pure { t with buf := buf2, preceeding := some c,
                    cur := { t.cur with x := t.cur.x + 1 } }) = _
  rw [hset]
  rfl

/-- `inputAux` succeeds on any well-shaped state with the cursor row inside
the grid, positive width, and sufficient fuel. -/
theorem inputAux_ok (c : Byte) :
    ∀ (fuel : Nat) (t : TermData), t.cur.x ≤ fuel → 0 < t.width →
      gridShape t.buf t.height t.width → t.cur.y < t.height →
      ∃ t2, inputAux c fuel t = Except.ok t2 := by
  intro fuel
  induction fuel with
  | zero =>
    intro t h1 hw hs hy
    obtain ⟨buf2, _, hok⟩ := inputAux_write c 0 t (by omega) hy hs
    exact ⟨_, hok⟩
  | succ k ih =>
    intro t h1 hw hs hy
    by_cases hge : t.width ≤ t.cur.x
    · by_cases hlw : t.mode.line_wrap = false
      · refine ⟨t, ?_⟩
        unfold inputAux
        rw [if_pos hge, if_pos hlw]
      · obtain ⟨t2, hlf, hsh2, hy2, hx2, hwd2, hht2, _, _, _⟩ :=
          linefeed_ok (t := { t with cur := { t.cur with x := t.cur.x - t.width } }) hs hy
        obtain ⟨t3, h3⟩ := ih t2 (by
            rw [hx2]
            show t.cur.x - t.width ≤ k
            omega)
          (by rw [hwd2]; exact hw)
          (by rw [hht2, hwd2]; exact hsh2)
          (by rw [hht2]; exact hy2)
        refine ⟨t3, ?_⟩
        unfold inputAux
        rw [if_pos hge, if_neg hlw]
        show (linefeed { t with cur := { t.cur with x := t.cur.x - t.width } } >>=
            fun t2 => inputAux c k t2) = Except.ok t3
        rw [hlf]
        exact h3
    · obtain ⟨buf2, _, hok⟩ := inputAux_write c (k + 1) t (by omega) hy hs
      exact ⟨_, hok⟩

/-- C7: behaviour of `input` (the emulator's `put`) on a well-shaped state
with the cursor row in the grid: with x ≥ W and LINE_WRAP unset the write is
dropped; with x < W the byte is written at the cursor, recorded as the
preceding character, and x is incremented; with x ≥ W and LINE_WRAP set the
call subtracts W from x, linefeeds, and recurses (so W is subtracted and a
linefeed performed until x < W); and the call always terminates successfully. -/
theorem C7_input_behaviour (t : TermData) (c : Byte)
    (hbuf : t.buf.length = t.height)
    (hrow : ∀ row ∈ t.buf, row.length = t.width)
    (hW : 0 < t.width)
    (hy : t.cur.y < t.height) :
    (t.width ≤ t.cur.x → t.mode.line_wrap = false → input t c = Except.ok t)
  ∧ (t.cur.x < t.width →
      ∃ buf2, gridSet t.buf t.cur.y t.cur.x c = some buf2 ∧
        input t c
          = Except.ok { t with buf := buf2, preceeding := some c,
                               cur := { t.cur with x := t.cur.x + 1 } })
  ∧ (t.width ≤ t.cur.x → t.mode.line_wrap = true →
      input t c = (linefeed { t with cur := { t.cur with x := t.cur.x - t.width } } >>=
        fun t2 => input t2 c))
  ∧ (∃ t2, input t c = Except.ok t2) := by
  have hs : gridShape t.buf t.height t.width := ⟨hbuf, hrow⟩
  refine ⟨?_, ?_, ?_, ?_⟩
  · intro hge hlw
    unfold input inputAux
    rw [if_pos hge, if_pos hlw]
  · intro hx
    exact inputAux_write c (t.cur.x + 1) t hx hy hs
  · intro hge hlw
    unfold input
    conv =>
      lhs
      unfold inputAux
    rw [if_pos hge, if_neg (by rw [hlw]; exact fun h => Bool.noConfusion h)]
    show (linefeed { t with cur := { t.cur with x := t.cur.x - t.width } } >>=
        fun t2 => inputAux c t.cur.x t2) = _
    cases hlf : linefeed { t with cur := { t.cur with x := t.cur.x - t.width } } with
    | error e => rfl
    | ok t2 =>
      show inputAux c t.cur.x t2 = inputAux c (t2.cur.x + 1) t2
      obtain ⟨hx2, hw2, _, _, _, _⟩ := linefeed_fields hlf
      apply inputAux_fuel c t.cur.x t2 (t2.cur.x + 1) (by rw [hw2]; exact hW)
      · rw [hx2]
        show t.cur.x - t.width ≤ t.cur.x
        omega
      · omega
  · exact inputAux_ok c (t.cur.x + 1) t (by omega) hW hs hy

/-- C7 witness: the behaviour instantiated on the fresh 2x3 terminal and the
byte of Z. -/
theorem C7_input_behaviour_witness :
    (term2x3.width ≤ term2x3.cur.x → term2x3.mode.line_wrap = false →
      input term2x3 90 = Except.ok term2x3)
  ∧ (term2x3.cur.x < term2x3.width →
      ∃ buf2, gridSet term2x3.buf term2x3.cur.y term2x3.cur.x 90 = some buf2 ∧
        input term2x3 90
          = Except.ok { term2x3 with buf := buf2, preceeding := some 90,
                                     cur := { term2x3.cur with x := term2x3.cur.x + 1 } })
  ∧ (term2x3.width ≤ term2x3.cur.x → term2x3.mode.line_wrap = true →
      input term2x3 90
        = (linefeed { term2x3 with cur := { term2x3.cur with x := term2x3.cur.x - term2x3.width } } >>=
            fun t2 => input t2 90))
  ∧ (∃ t2, input term2x3 90 = Except.ok t2) :=
  C7_input_behaviour term2x3 90 (by decide) (by decide) (by decide) (by decide)

/-- No movement operation touches the saved cursor. -/
theorem applyMove_saved {t t2 : TermData} {op : MoveOp}
    (h : applyMove t op = Except.ok t2) : t2.saved_cur = t.saved_cur := by
  cases op <;> simp only [applyMove] at h
  case carriageReturnOp =>
    have h2 : (Except.ok (carriage_return t) : Except TErr TermData) = Except.ok t2 := h
    injection h2 with h3
    subst h3
    rfl
  case linefeedOp => exact (linefeed_fields h).2.2.2.2.1
  case newlineOp =>
    unfold newline at h
    obtain ⟨tm, hlf, h2⟩ := except_bind_ok h
    have hm : tm.saved_cur = t.saved_cur := (linefeed_fields hlf).2.2.2.2.1
    by_cases hc : tm.mode.line_feed_new_line = true
    · rw [if_pos hc] at h2
      have h3 : (Except.ok (carriage_return tm) : Except TErr TermData) = Except.ok t2 := h2
      injection h3 with h4
      subst h4
      exact hm
    · rw [if_neg hc] at h2
      have h3 : (Except.ok tm : Except TErr TermData) = Except.ok t2 := h2
      injection h3 with h4
      subst h4
      exact hm
  case backspaceOp =>
    have h2 : (Except.ok (backspace t) : Except TErr TermData) = Except.ok t2 := h
    injection h2 with h3
    subst h3
    unfold backspace
    split <;> rfl
  case addXOp n =>
    have h2 : (Except.ok (add_x t n) : Except TErr TermData) = Except.ok t2 := h
    injection h2 with h3
    subst h3
    rfl
  case subXOp n =>
    unfold sub_x at h
    split at h
    · injection h with h3; subst h3; rfl
    · exact Except.noConfusion h
  case addYOp n =>
    unfold add_y at h
    split at h
    · injection h with h3; subst h3; rfl
    · exact Except.noConfusion h
  case subYOp n =>
    unfold sub_y at h
    split at h
    · injection h with h3; subst h3; rfl
    · exact Except.noConfusion h
  case gotoXOp n =>
    have h2 : (Except.ok (goto_x t n) : Except TErr TermData) = Except.ok t2 := h
    injection h2 with h3
    subst h3
    rfl
  case gotoYOp n =>
    unfold goto_y at h
    split at h
    · injection h with h3; subst h3; rfl
    · exact Except.noConfusion h
  case gotoOp cpos =>
    have h2 : (Except.ok (goto t cpos) : Except TErr TermData) = Except.ok t2 := h
    injection h2 with h3
    subst h3
    rfl
  case reverseIndexOp =>
    unfold reverse_index at h
    split at h
    · unfold scroll_down at h
      obtain ⟨b, hb⟩ := scroll_down_relative_inv h
      subst hb
      rfl
    · split at h
      · unfold sub_y at h
        split at h
        · injection h with h3; subst h3; rfl
        · exact Except.noConfusion h
      · injection h with h3; subst h3; rfl

/-- C9: save_cursor, any error-free sequence of cursor-movement operations,
then restore_cursor returns the cursor to its position at the save: none of the
movement operations writes the saved-cursor slot, and restore copies it back. -/
theorem C9_save_restore (t : TermData) (ops : List MoveOp) (t2 : TermData)
    (h : applyMoves (save_cursor t) ops = Except.ok t2) :
    (restore_cursor t2).cur = t.cur := by
  have hsv : t2.saved_cur = t.cur :=
    foldlM_except_inv (P := fun s => s.saved_cur = t.cur) applyMove ops (save_cursor t) t2
      (fun b op b2 _ hb hba => by show b2.saved_cur = t.cur; rw [applyMove_saved hba]; exact hb) rfl h
  exact hsv

/-- C9 witness: saving at (1,1), doing a carriage return, and restoring brings
the cursor back to (1,1). -/
theorem C9_save_restore_witness :
    (restore_cursor { term2x3cur with saved_cur := ⟨1, 1⟩, cur := ⟨0, 1⟩ }).cur
      = term2x3cur.cur :=
  C9_save_restore term2x3cur [MoveOp.carriageReturnOp]
    { term2x3cur with saved_cur := ⟨1, 1⟩, cur := ⟨0, 1⟩ } (by rfl)

/-- A computation that only replaces the buffer leaves every other field
unchanged. -/
theorem withBuf_frame {t t2 : TermData} {e : Except TErr (List (List Byte))}
    (h : (e >>= fun b => Except.ok { t with buf := b }) = Except.ok t2) :
    t2.cur = t.cur ∧ t2.saved_cur = t.saved_cur ∧ t2.mode = t.mode ∧
    t2.scroll_range = t.scroll_range ∧ t2.preceeding = t.preceeding ∧
    t2.height = t.height ∧ t2.width = t.width := by
  obtain ⟨b, _, h2⟩ := except_bind_ok h
  have h3 : (Except.ok { t with buf := b } : Except TErr TermData) = Except.ok t2 := h2
  injection h3 with h4
  subst h4
  exact ⟨rfl, rfl, rfl, rfl, rfl, rfl, rfl⟩

/-- C10: every clear operation (clear_scr with mode Below, Above, All or Saved,
and clear_line with mode Right, Left or All) modifies only grid cells: the
cursor, saved cursor, mode set, scroll region, preceding character and
dimensions are unchanged whenever the operation completes. -/
theorem C10_clear_frame (t : TermData) :
    (∀ m t2, clear_scr t m = Except.ok t2 →
      t2.cur = t.cur ∧ t2.saved_cur = t.saved_cur ∧ t2.mode = t.mode ∧
      t2.scroll_range = t.scroll_range ∧ t2.preceeding = t.preceeding ∧
      t2.height = t.height ∧ t2.width = t.width)
  ∧ (∀ m t2, clear_line t m = Except.ok t2 →
      t2.cur = t.cur ∧ t2.saved_cur = t.saved_cur ∧ t2.mode = t.mode ∧
      t2.scroll_range = t.scroll_range ∧ t2.preceeding = t.preceeding ∧
      t2.height = t.height ∧ t2.width = t.width) := by
  constructor
  · intro m t2 h
    cases m with
    | All =>
      unfold clear_scr at h
      exact withBuf_frame h
    | Above =>
      unfold clear_scr at h
      obtain ⟨b, _, h2⟩ := except_bind_ok h
      exact withBuf_frame h2
    | Below =>
      unfold clear_scr at h
      obtain ⟨b, _, h2⟩ := except_bind_ok h
      exact withBuf_frame h2
    | Saved =>
      unfold clear_scr at h
      have h3 : (Except.ok t : Except TErr TermData) = Except.ok t2 := h
      injection h3 with h4
      subst h4
      exact ⟨rfl, rfl, rfl, rfl, rfl, rfl, rfl⟩
  · intro m t2 h
    cases m with
    | Right =>
      unfold clear_line at h
      exact withBuf_frame h
    | Left =>
      unfold clear_line at h
      exact withBuf_frame h
    | All =>
      unfold clear_line at h
      exact withBuf_frame h

/-- C10 witness: clearing the whole screen of the 2x3 terminal with the cursor
at (1,1) leaves cursor, saved cursor, mode, scroll region, preceding character
and dimensions unchanged. -/
theorem C10_clear_frame_witness :
    term2x3cur.cur = term2x3cur.cur ∧ term2x3cur.saved_cur = term2x3cur.saved_cur ∧
    term2x3cur.mode = term2x3cur.mode ∧ term2x3cur.scroll_range = term2x3cur.scroll_range ∧
    term2x3cur.preceeding = term2x3cur.preceeding ∧ term2x3cur.height = term2x3cur.height ∧
    term2x3cur.width = term2x3cur.width :=
  (C10_clear_frame term2x3cur).1 ClearMode.All term2x3cur (by rfl)

end CGW
